import Mathlib

/-!
# Verification of `convert.py` (biblionlabs/extra_data_source)

Shallow embedding of the ingestion pipeline of `src/convert.py`:
the text normalizer, the canonical book table, the book-identity
resolver, the format detector, the USFM and SWORD-imp parsers, the
directory merger, the content converter and the manifest builder.

Modelling conventions:
* Python strings are sequences of Unicode code points; where code-point
  arithmetic matters (`str.lower`, `unicodedata.normalize("NFD", ·)`,
  category `Mn`) we work on `List Nat` of code points.  The Unicode
  tables are embedded for the repertoire the program manipulates
  (ASCII plus the Spanish accented letters that occur in `BOOK_MAP`
  and the corresponding combining marks); all other code points are
  left untouched by `lower` and `NFD`, which is their actual Unicode
  behaviour for every character appearing in the program's data.
* Python exceptions are modelled by `Option`/failure values: a function
  that can raise returns `none` where the Python code would throw
  (`ValueError`, `KeyError`, `TypeError`).
* Python `dict`s (which preserve insertion order) are modelled as
  association lists with insert-or-replace-in-place semantics.
-/

namespace Convert

/-! ## Code points and the text normalizer (`normalize`, convert.py:40-46) -/

/-- The code points of a Lean string (Python strings are code-point sequences). -/
def codes (s : String) : List Nat := s.data.map Char.toNat

/-- `str.lower` on one code point, for the repertoire used by the program:
ASCII `A`-`Z` and the accented capitals `Á É Í Ñ Ó Ú Ü`; every other
code point is its own lower case. -/
def lowerCp (n : Nat) : Nat :=
  if 65 ≤ n ∧ n ≤ 90 then n + 32
  else if n = 193 then 225 else if n = 201 then 233 else if n = 205 then 237
  else if n = 209 then 241 else if n = 211 then 243 else if n = 218 then 250
  else if n = 220 then 252 else n

/-- `str.lower` on a code-point sequence. -/
def lowerCodes (s : List Nat) : List Nat := s.map lowerCp

/-- `unicodedata.normalize("NFD", ·)` on one code point: the accented
letters of the repertoire decompose into their base letter followed by a
combining mark (U+0301 acute, U+0303 tilde, U+0308 diaeresis); every
other code point of the repertoire is NFD-invariant. -/
def nfdCp (n : Nat) : List Nat :=
  if n = 193 then [65, 769] else if n = 201 then [69, 769] else if n = 205 then [73, 769]
  else if n = 209 then [78, 771] else if n = 211 then [79, 769] else if n = 218 then [85, 769]
  else if n = 220 then [85, 776]
  else if n = 225 then [97, 769] else if n = 233 then [101, 769] else if n = 237 then [105, 769]
  else if n = 241 then [110, 771] else if n = 243 then [111, 769] else if n = 250 then [117, 769]
  else if n = 252 then [117, 776]
  else [n]

/-- Unicode category `Mn` (nonspacing combining mark): the combining
diacritical marks block U+0300-U+036F, which covers every mark the
embedded `nfdCp` can produce. -/
def isMnCp (n : Nat) : Bool := decide (768 ≤ n ∧ n ≤ 879)

/-- `normalize` (convert.py:40-46): lower-case, NFD-decompose and drop
category-`Mn` marks, then `replace(" ", "")` — which removes only the
space code point 32, no other whitespace. -/
def pyNormalize (s : List Nat) : List Nat :=
  (((s.map lowerCp).flatMap nfdCp).filter (fun c => !isMnCp c)).filter (fun c => c != 32)

/-! ## The canonical book table (`BOOK_MAP`, convert.py:32-34) -/

/-- One value of the `BOOK_MAP` dict: the three display-name variants. -/
structure BookNames where
  normal : String
  long : String
  abbr : String
deriving DecidableEq, Repr

/-- `BOOK_MAP` (convert.py:33), in the dict literal's insertion order. -/
def BOOK_MAP : List (String × BookNames) := [
  ("1ch", ⟨"1 Crónicas", "1 Crónicas", "1 Crón"⟩),
  ("1co", ⟨"1 Corintios", "1 Corintios", "1 Cori"⟩),
  ("1jn", ⟨"1 Juan", "1 Juan", "1 Juan"⟩),
  ("1ki", ⟨"1 Reyes", "1 Reyes", "1 Reye"⟩),
  ("1pe", ⟨"1 Pedro", "1 Pedro", "1 Pedr"⟩),
  ("1sa", ⟨"1 Samuel", "1 Samuel", "1 Samu"⟩),
  ("1th", ⟨"1 Tesalonicenses", "1 Tesalonicenses", "1 Tesa"⟩),
  ("1ti", ⟨"1 Timoteo", "1 Timoteo", "1 Timo"⟩),
  ("2ch", ⟨"2 Crónicas", "2 Crónicas", "2 Crón"⟩),
  ("2co", ⟨"2 Corintios", "2 Corintios", "2 Cori"⟩),
  ("2jn", ⟨"2 Juan", "2 Juan", "2 Juan"⟩),
  ("2ki", ⟨"2 Reyes", "2 Reyes", "2 Reye"⟩),
  ("2pe", ⟨"2 Pedro", "2 Pedro", "2 Pedr"⟩),
  ("2sa", ⟨"2 Samuel", "2 Samuel", "2 Samu"⟩),
  ("2th", ⟨"2 Tesalonicenses", "2 Tesalonicenses", "2 Tesa"⟩),
  ("2ti", ⟨"2 Timoteo", "2 Timoteo", "2 Timo"⟩),
  ("3jn", ⟨"3 Juan", "3 Juan", "3 Juan"⟩),
  ("act", ⟨"Hechos", "Hechos", "Hechos"⟩),
  ("amo", ⟨"Amós", "Amós", "Amós"⟩),
  ("col", ⟨"Colosenses", "Colosenses", "Colose"⟩),
  ("dan", ⟨"Daniel", "Daniel", "Daniel"⟩),
  ("deu", ⟨"Deuteronomio", "Deuteronomio", "Deuter"⟩),
  ("ecc", ⟨"Eclesiastés", "Eclesiastés", "Eclesi"⟩),
  ("eph", ⟨"Efesios", "Efesios", "Efesio"⟩),
  ("est", ⟨"Ester", "Ester", "Ester"⟩),
  ("exo", ⟨"Éxodo", "Éxodo", "Éxodo"⟩),
  ("ezk", ⟨"Ezequiel", "Ezequiel", "Ezequi"⟩),
  ("ezr", ⟨"Esdras", "Esdras", "Esdras"⟩),
  ("gal", ⟨"Gálatas", "Gálatas", "Gálata"⟩),
  ("gen", ⟨"Génesis", "Génesis", "Génesi"⟩),
  ("hab", ⟨"Habacuc", "Habacuc", "Habacu"⟩),
  ("hag", ⟨"Hageo", "Hageo", "Hageo"⟩),
  ("heb", ⟨"Hebreos", "Hebreos", "Hebreo"⟩),
  ("hos", ⟨"Oseas", "Oseas", "Oseas"⟩),
  ("isa", ⟨"Isaías", "Isaías", "Isaías"⟩),
  ("jas", ⟨"Santiago", "Santiago", "Santia"⟩),
  ("jdg", ⟨"Jueces", "Jueces", "Jueces"⟩),
  ("jer", ⟨"Jeremías", "Jeremías", "Jeremí"⟩),
  ("jhn", ⟨"Juan", "Juan", "Juan"⟩),
  ("job", ⟨"Job", "Job", "Job"⟩),
  ("jol", ⟨"Joel", "Joel", "Joel"⟩),
  ("jon", ⟨"Jonás", "Jonás", "Jonás"⟩),
  ("jos", ⟨"Josué", "Josué", "Josué"⟩),
  ("jud", ⟨"Judas", "Judas", "Judas"⟩),
  ("lam", ⟨"Lamentaciones", "Lamentaciones", "Lament"⟩),
  ("lev", ⟨"Levítico", "Levítico", "Levíti"⟩),
  ("luk", ⟨"Lucas", "Lucas", "Lucas"⟩),
  ("mal", ⟨"Malaquías", "Malaquías", "Malaqu"⟩),
  ("mat", ⟨"Mateo", "Mateo", "Mateo"⟩),
  ("mic", ⟨"Miqueas", "Miqueas", "Miquea"⟩),
  ("mrk", ⟨"Marcos", "Marcos", "Marcos"⟩),
  ("nam", ⟨"Nahum", "Nahum", "Nahum"⟩),
  ("neh", ⟨"Nehemías", "Nehemías", "Nehemí"⟩),
  ("num", ⟨"Números", "Números", "Número"⟩),
  ("oba", ⟨"Abdías", "Abdías", "Abdías"⟩),
  ("phm", ⟨"Filemón", "Filemón", "Filemó"⟩),
  ("php", ⟨"Filipenses", "Filipenses", "Filipe"⟩),
  ("pro", ⟨"Proverbios", "Proverbios", "Prover"⟩),
  ("psa", ⟨"Salmos", "Salmos", "Salmos"⟩),
  ("rev", ⟨"Apocalipsis", "Apocalipsis", "Apocal"⟩),
  ("rom", ⟨"Romanos", "Romanos", "Romano"⟩),
  ("rut", ⟨"Rut", "Rut", "Rut"⟩),
  ("sng", ⟨"Cantares", "Cantar de los Cantares", "Cantar"⟩),
  ("tit", ⟨"Tito", "Tito", "Tito"⟩),
  ("zec", ⟨"Zacarías", "Zacarías", "Zacarí"⟩),
  ("zep", ⟨"Sofonías", "Sofonías", "Sofoní"⟩)]

/-! ## The book identity resolver (`find_book_id_from_name`, convert.py:48-78) -/

/-- Whether `l` starts with `p` (Python `str.startswith`). -/
def startsWithL [BEq α] : List α → List α → Bool
  | _, [] => true
  | [], _ :: _ => false
  | a :: l, b :: p => a == b && startsWithL l p

/-- Whether `pat` occurs as a contiguous subsequence of the second list
(Python's `pat in hay` on strings; the empty pattern always occurs). -/
def containsSeq [BEq α] (pat : List α) : List α → Bool
  | [] => startsWithL [] pat
  | h :: t => startsWithL (h :: t) pat || containsSeq pat t

/-- Tier 1 (convert.py:58-60): first entry whose long name equals the
input case-insensitively (`item["long"].lower() == name.lower()`). -/
def findTier1 (name : String) : Option (String × BookNames) :=
  BOOK_MAP.find? (fun p => lowerCodes (codes p.2.long) == lowerCodes (codes name))

/-- Tier 2 (convert.py:62-64): first entry whose normalized long name
equals the normalized input. -/
def findTier2 (name : String) : Option (String × BookNames) :=
  BOOK_MAP.find? (fun p => pyNormalize (codes p.2.long) == pyNormalize (codes name))

/-- The regex `^([1-3])(.+)$` of convert.py:66 applied to a normalized
name: `.` does not match a newline and `$` also matches just before a
final newline, so the match succeeds exactly when, after discarding one
trailing newline, the text is a digit `1`-`3` followed by at least one
character and contains no newline. -/
def tier3Pat (norm : List Nat) : Option (Nat × List Nat) :=
  let core := match norm.getLast? with
    | some 10 => norm.dropLast
    | _ => norm
  match core with
  | [] => none
  | d :: rest =>
    if (d == 49 || d == 50 || d == 51) && !rest.isEmpty && !core.contains 10 then
      some (d, rest)
    else none

/-- Tier 3 (convert.py:66-72): numeric-prefix search — first entry whose
id starts with the matched digit and whose *normalized long name* starts
with the rest of the normalized input. -/
def findTier3 (name : String) : Option (String × BookNames) :=
  match tier3Pat (pyNormalize (codes name)) with
  | none => none
  | some (d, base) =>
    BOOK_MAP.find? (fun p =>
      startsWithL (codes p.1) [d] && startsWithL (pyNormalize (codes p.2.long)) base)

/-- Tier 4 (convert.py:74-76): first entry whose normalized long name
contains the normalized input as a substring. -/
def findTier4 (name : String) : Option (String × BookNames) :=
  BOOK_MAP.find? (fun p => containsSeq (pyNormalize (codes name)) (pyNormalize (codes p.2.long)))

/-- `find_book_id_from_name` (convert.py:48-78): the four tiers in strict
order; `none` models the final `raise ValueError`. -/
def find_book_id_from_name (name : String) : Option (String × BookNames) :=
  match findTier1 name with
  | some r => some r
  | none =>
    match findTier2 name with
    | some r => some r
    | none =>
      match findTier3 name with
      | some r => some r
      | none => findTier4 name

/-! ## The intermediate schema (RawBook / RawChapter / RawItem) -/

/-- One chapter item as the parsers and the JSON loader produce it: a
Python dict whose keys may include `"type"`, `"verse"`, `"lines"` and
`"text"`; an absent key is `none` (reading it raises `KeyError`). -/
structure RawItem where
  type : Option String
  verse : Option Nat
  lines : Option (List String)
  text : Option String
deriving DecidableEq, Repr

/-- An intermediate chapter: `{"number": n, "items": [...]}`. -/
structure RawChapter where
  number : Nat
  items : List RawItem
deriving DecidableEq, Repr

/-- An intermediate book: `{"name": ..., "chapters": [...]}`. -/
structure RawBook where
  name : String
  chapters : List RawChapter
deriving DecidableEq, Repr

/-! ## Content converter and per-book conversion (convert.py:366-379) -/

/-- `mapOption f l` evaluates `f` on the elements in order and fails as
soon as one application fails — the behaviour of a Python list
comprehension whose body can raise. -/
def mapOption (f : α → Option β) : List α → Option (List β)
  | [] => some []
  | x :: xs =>
    match f x, mapOption f xs with
    | some y, some ys => some (y :: ys)
    | _, _ => none

/-- `convert_chapter_item` (convert.py:366-367): `[" ".join(it["lines"])]`.
The lone output node is a one-element list holding the joined lines; an
item without a `"lines"` key raises `KeyError`, modelled as `none`. -/
def convert_chapter_item (it : RawItem) : Option (List String) :=
  match it.lines with
  | some ls => some [String.intercalate " " ls]
  | none => none

/-- The canonical per-book structure written to `books/<book_id>.json`
(convert.py:372-379). -/
structure RustBook where
  book : String
  name : BookNames
  contents : List (List (List String))
deriving DecidableEq, Repr

/-- `convert_book` (convert.py:369-379): resolve the display name, then
convert every item of every chapter; any raised exception (unrecognized
name, or a missing `"lines"` key) makes the whole book fail. -/
def convert_book (b : RawBook) : Option (String × RustBook) :=
  match find_book_id_from_name b.name with
  | none => none
  | some (bid, entry) =>
    match mapOption (fun ch => mapOption convert_chapter_item ch.items) b.chapters with
    | none => none
    | some contents => some (bid, ⟨bid, entry, contents⟩)

/-! ## The conversion loop of `main` and the manifest (convert.py:386-424) -/

/-- Insert-or-replace into an insertion-ordered association list: the
semantics of `converted[book_id] = rust_book` on a Python dict (an
existing key keeps its position, a new key is appended). -/
def dictInsert (k : String) (v : RustBook) (acc : List (String × RustBook)) :
    List (String × RustBook) :=
  if acc.any (fun p => p.1 == k) then
    acc.map (fun p => if p.1 == k then (k, v) else p)
  else acc ++ [(k, v)]

/-- One iteration of the `for book in source["books"]` loop of `main`
(convert.py:413-422): a book whose conversion raises is skipped. -/
def mainStep (acc : List (String × RustBook)) (bk : RawBook) : List (String × RustBook) :=
  match convert_book bk with
  | none => acc
  | some (bid, rb) => dictInsert bid rb acc

/-- The `converted` dict after the loop of `main` over `source["books"]`. -/
def processBooks (books : List RawBook) : List (String × RustBook) :=
  books.foldl mainStep []

/-- The ids of the `books/<book_id>.json` files written by the loop of
`main`, in writing order: one per successfully converted book. -/
def writtenBookFiles (books : List RawBook) : List String :=
  books.foldl (fun acc bk =>
    match convert_book bk with
    | none => acc
    | some (bid, _) => acc ++ [bid]) []

/-- The manifest structure (convert.py:386-391). -/
structure Manifest where
  book_names : List (String × BookNames)
  chapter_headings : List (String × String)
  sections : List (String × String)
deriving DecidableEq, Repr

/-- `build_manifest` (convert.py:386-391): `book_names` maps each key of
`converted` to its name record; the other two maps are empty. -/
def build_manifest (converted : List (String × RustBook)) : Manifest :=
  ⟨converted.map (fun p => (p.1, p.2.name)), [], []⟩

/-! ## Line and character helpers shared by the line-oriented parsers -/

/-- Python `\s` on the ASCII repertoire: space, tab, newline, carriage
return, vertical tab, form feed. -/
def isSpaceCh (c : Char) : Bool :=
  c == ' ' || c == '\t' || c == '\n' || c == '\x0d' || c == '\x0b' || c == '\x0c'

/-- `\d`: an ASCII digit. -/
def isDigitCh (c : Char) : Bool := 48 ≤ c.toNat && c.toNat ≤ 57

/-- `\w` on the ASCII repertoire: letters, digits, underscore. -/
def isWordCh (c : Char) : Bool :=
  (65 ≤ c.toNat && c.toNat ≤ 90) || (97 ≤ c.toNat && c.toNat ≤ 122) ||
  (48 ≤ c.toNat && c.toNat ≤ 57) || c == '_'

/-- The character class `[A-Z1-3]` under `re.IGNORECASE`. -/
def isIdClassCh (c : Char) : Bool :=
  (65 ≤ c.toNat && c.toNat ≤ 90) || (97 ≤ c.toNat && c.toNat ≤ 122) ||
  (49 ≤ c.toNat && c.toNat ≤ 51)

/-- The numeric value of a run of ASCII digits (`int` on the group). -/
def digitsToNat (ds : List Char) : Nat :=
  ds.foldl (fun a c => a * 10 + (c.toNat - 48)) 0

/-- Python `str.strip()`: drop leading and trailing whitespace. -/
def pyStrip (l : List Char) : List Char :=
  ((l.dropWhile isSpaceCh).reverse.dropWhile isSpaceCh).reverse

/-- Split a character sequence at every newline (`n + 1` segments for
`n` newlines). -/
def splitNl : List Char → List (List Char)
  | [] => [[]]
  | c :: rest =>
    match splitNl rest with
    | [] => [[c]]
    | s :: ss => if c = '\n' then [] :: s :: ss else (c :: s) :: ss

/-- Python `str.splitlines()` for newline-separated text: the empty
string gives no lines, and a trailing newline does not create a final
empty line. -/
def pySplitlines (s : List Char) : List (List Char) :=
  if s.isEmpty then []
  else if s.getLast? = some '\n' then (splitNl s).dropLast
  else splitNl s

/-! ## The USFM parser (`load_usfm`, convert.py:93-152) -/

/-- `USFM_BOOK_RE = ^\\id\s+([A-Z1-3]{2,4})` with `re.IGNORECASE`
(convert.py:93), applied to a stripped line: backslash, `id` in either
case, at least one whitespace, then greedily two to four class
characters; returns the captured group. -/
def matchUsfmId (l : List Char) : Option (List Char) :=
  match l with
  | '\\' :: c1 :: c2 :: rest =>
    if (c1 == 'i' || c1 == 'I') && (c2 == 'd' || c2 == 'D') then
      if (rest.takeWhile isSpaceCh).isEmpty then none
      else
        let grp := ((rest.dropWhile isSpaceCh).takeWhile isIdClassCh).take 4
        if 2 ≤ grp.length then some grp else none
    else none
  | _ => none

/-- `USFM_CH_RE = ^\\c\s+(\d+)` (convert.py:94, case-sensitive): returns
the chapter number. -/
def matchUsfmCh (l : List Char) : Option Nat :=
  match l with
  | '\\' :: 'c' :: rest =>
    if (rest.takeWhile isSpaceCh).isEmpty then none
    else
      let ds := (rest.dropWhile isSpaceCh).takeWhile isDigitCh
      if ds.isEmpty then none else some (digitsToNat ds)
  | _ => none

/-- `USFM_VS_RE = ^\\v\s+(\d+)\s+(.*)` (convert.py:95): returns the
verse number and the trailing text (everything after the second
whitespace run). -/
def matchUsfmVs (l : List Char) : Option (Nat × List Char) :=
  match l with
  | '\\' :: 'v' :: rest =>
    if (rest.takeWhile isSpaceCh).isEmpty then none
    else
      let r1 := rest.dropWhile isSpaceCh
      let ds := r1.takeWhile isDigitCh
      if ds.isEmpty then none
      else
        let r2 := r1.dropWhile isDigitCh
        if (r2.takeWhile isSpaceCh).isEmpty then none
        else some (digitsToNat ds, r2.dropWhile isSpaceCh)
  | _ => none

/-- `USFM_TO_NAME` (convert.py:97-108). -/
def usfmToName : List (String × String) :=
  [("GEN", "Génesis"), ("EXO", "Éxodo"), ("LEV", "Levítico"), ("NUM", "Números"),
   ("DEU", "Deuteronomio"), ("JHN", "Juan"), ("MRK", "Marcos"), ("MAT", "Mateo"),
   ("LUK", "Lucas")]

/-- Python `str.upper()` on the ASCII repertoire the book codes use. -/
def upperChars (l : List Char) : List Char :=
  l.map (fun c => if 97 ≤ c.toNat && c.toNat ≤ 122 then Char.ofNat (c.toNat - 32) else c)

/-- `USFM_TO_NAME.get(book_code, book_code)` with `book_code` already
upper-cased (convert.py:122-123). -/
def usfmName (code : List Char) : String :=
  match usfmToName.find? (fun p => p.1 == String.mk code) with
  | some p => p.2
  | none => String.mk code

/-- The book being accumulated by `load_usfm`: its display name, its
finished chapters, and the chapter currently receiving verses (`None`
before the first `\c` marker of the book). -/
structure CurBook where
  name : String
  done : List RawChapter
  curCh : Option (Nat × List RawItem)
deriving Repr

/-- Flush the current chapter (if any) and produce the intermediate book. -/
def flushBook (cb : CurBook) : RawBook :=
  ⟨cb.name, cb.done ++ (match cb.curCh with
    | some (n, its) => [⟨n, its⟩]
    | none => [])⟩

/-- One iteration of the line loop of `load_usfm` (convert.py:117-147) on
the pair (finished books, current book).  A `\c` line with no current
book is the untranslatable `current_book["chapters"].append` on `None`:
a raised `TypeError`, modelled as `none`. -/
def usfmStep (st : List RawBook × Option CurBook) (line : List Char) :
    Option (List RawBook × Option CurBook) :=
  let l := pyStrip line
  match matchUsfmId l with
  | some code =>
    let books := match st.2 with
      | some cb => st.1 ++ [flushBook cb]
      | none => st.1
    some (books, some ⟨usfmName (upperChars code), [], none⟩)
  | none =>
    match matchUsfmCh l with
    | some n =>
      match st.2 with
      | none => none
      | some cb => some (st.1, some ⟨cb.name, cb.done ++ (match cb.curCh with
          | some (m, its) => [⟨m, its⟩]
          | none => []), some (n, [])⟩)
    | none =>
      match matchUsfmVs l with
      | some (vn, text) =>
        match st.2 with
        | some cb =>
          match cb.curCh with
          | some (m, its) =>
            some (st.1, some ⟨cb.name, cb.done,
              some (m, its ++ [⟨some "verse", some vn, some [String.mk text], none⟩])⟩)
          | none => some st
        | none => some st
      | none => some st

/-- `foldOpt f s l`: fold that stops at the first failure — the behaviour
of a Python loop whose body can raise. -/
def foldOpt (f : σ → α → Option σ) : σ → List α → Option σ
  | s, [] => some s
  | s, a :: l =>
    match f s a with
    | none => none
    | some s' => foldOpt f s' l

/-- The body of `load_usfm` on an already-split line list. -/
def loadUsfmLines (lines : List (List Char)) : Option (List RawBook) :=
  match foldOpt usfmStep ([], none) lines with
  | none => none
  | some (books, cur) => some (books ++ (match cur with
      | some cb => [flushBook cb]
      | none => []))

/-- `load_usfm` (convert.py:110-152): split the text into lines and run
the line loop; `none` models an uncaught exception. -/
def load_usfm (text : String) : Option (List RawBook) :=
  loadUsfmLines (pySplitlines text.data)

/-! ## The SWORD imp parser (`load_imp`, convert.py:261-295) -/

/-- `IMP_RE = ^(\w+)\s+(\d+):(\d+)\s+(.*)$` (convert.py:261): book code,
chapter, verse, text. -/
def parseImpLine (l : List Char) : Option (List Char × Nat × Nat × List Char) :=
  let w := l.takeWhile isWordCh
  if w.isEmpty then none
  else
    let r1 := l.dropWhile isWordCh
    if (r1.takeWhile isSpaceCh).isEmpty then none
    else
      let r2 := r1.dropWhile isSpaceCh
      let d1 := r2.takeWhile isDigitCh
      if d1.isEmpty then none
      else
        match r2.dropWhile isDigitCh with
        | ':' :: r4 =>
          let d2 := r4.takeWhile isDigitCh
          if d2.isEmpty then none
          else
            let r5 := r4.dropWhile isDigitCh
            if (r5.takeWhile isSpaceCh).isEmpty then none
            else some (w, digitsToNat d1, digitsToNat d2, r5.dropWhile isSpaceCh)
        | _ => none

/-- Append an item to chapter `ch` of the per-book chapter dict
(convert.py:278-285), creating the chapter at the end on first sight. -/
def insertCh (chs : List (Nat × List RawItem)) (ch : Nat) (it : RawItem) :
    List (Nat × List RawItem) :=
  if chs.any (fun p => p.1 == ch) then
    chs.map (fun p => if p.1 == ch then (p.1, p.2 ++ [it]) else p)
  else chs ++ [(ch, [it])]

/-- Route one parsed imp verse into the books dict (convert.py:273-285). -/
def insertVerse (books : List (String × List (Nat × List RawItem))) (name : String)
    (ch : Nat) (it : RawItem) : List (String × List (Nat × List RawItem)) :=
  if books.any (fun b => b.1 == name) then
    books.map (fun b => if b.1 == name then (b.1, insertCh b.2 ch it) else b)
  else books ++ [(name, [(ch, [it])])]

/-- One line of the `load_imp` loop: non-matching lines are skipped. -/
def impStep (books : List (String × List (Nat × List RawItem))) (l : List Char) :
    List (String × List (Nat × List RawItem)) :=
  match parseImpLine l with
  | none => books
  | some (w, ch, vn, txt) =>
    let name := match usfmToName.find? (fun p => p.1 == String.mk (upperChars w)) with
      | some p => p.2
      | none => String.mk w
    insertVerse books name ch ⟨some "verse", some vn, some [String.mk txt], none⟩

/-- `load_imp` (convert.py:263-295): accumulate verses into dicts keyed
by book name and chapter number, then flatten the dicts in insertion
order (chapters stay in first-encounter order, not numeric order). -/
def load_imp (text : String) : List RawBook :=
  ((pySplitlines text.data).foldl impStep []).map
    (fun b => ⟨b.1, b.2.map (fun p => ⟨p.1, p.2⟩)⟩)

/-! ## Format detection and dispatch (convert.py:302-332) -/

/-- A source file as the pipeline sees it: its extension (`Path.suffix`,
with the leading dot) and its text content. -/
structure SrcFile where
  suffix : String
  text : String
deriving Repr

/-- The four loaders that parse through external libraries (`json.loads`
and `xml.etree`, convert.py:85-86, 159-254): the embedding treats them as
environment parameters, since their work happens inside the Python
standard library. -/
structure ExtParsers where
  loadJson : String → Option (List RawBook)
  loadOsis : String → Option (List RawBook)
  loadSimple : String → Option (List RawBook)
  loadZefania : String → Option (List RawBook)

/-- `detect_format` (convert.py:302-313): decide by lower-cased extension;
sniff `.xml` content for dialect markers with `simplexml` as fallback;
any other extension raises `ValueError`, modelled as `none`. -/
def detect_format (f : SrcFile) : Option String :=
  let ext := String.mk (f.suffix.data.map (fun c => Char.ofNat (lowerCp c.toNat)))
  if ext == ".json" then some "json"
  else if ext == ".usfm" || ext == ".txt" then some "usfm"
  else if ext == ".imp" then some "imp"
  else if ext == ".xml" then
    let t := f.text.data
    if containsSeq "<osis".data t then some "osis"
    else if containsSeq "<XMLBIBLE".data t then some "zefania"
    else if containsSeq "<bible".data t && containsSeq "<b ".data t then some "simplexml"
    else some "simplexml"
  else none

/-- `load_any` (convert.py:316-332): detect, then dispatch to the parser;
a detection failure propagates. -/
def load_any (ext : ExtParsers) (f : SrcFile) : Option (List RawBook) :=
  match detect_format f with
  | none => none
  | some fmt =>
    if fmt == "json" then ext.loadJson f.text
    else if fmt == "usfm" then load_usfm f.text
    else if fmt == "osis" then ext.loadOsis f.text
    else if fmt == "simplexml" then ext.loadSimple f.text
    else if fmt == "zefania" then ext.loadZefania f.text
    else if fmt == "imp" then some (load_imp f.text)
    else none

/-! ## The directory merger (`load_from_directory`, convert.py:339-359) -/

/-- Merge one incoming book into an existing book of the same name
(convert.py:352-357): the set of already-present chapter numbers is taken
once, chapters whose number is present are dropped, the others are
appended in order.  Existing chapters are never replaced. -/
def mergeBook (existing incoming : RawBook) : RawBook :=
  let nums := existing.chapters.map (fun c => c.number)
  ⟨existing.name,
   incoming.chapters.foldl
     (fun chs ch => if nums.contains ch.number then chs else chs ++ [ch])
     existing.chapters⟩

/-- Merge one incoming book into the `all_books` dict (convert.py:347-357),
keyed by display name in insertion order. -/
def mergeOne (acc : List RawBook) (book : RawBook) : List RawBook :=
  if acc.any (fun e => e.name == book.name) then
    acc.map (fun e => if e.name == book.name then mergeBook e book else e)
  else acc ++ [book]

/-- Fold a file's book list into the accumulator. -/
def mergeBooks (acc : List RawBook) (new : List RawBook) : List RawBook :=
  new.foldl mergeOne acc

/-- `load_from_directory` (convert.py:339-359): load every file in listing
order and merge; there is no exception handling in this loop, so any
loader failure propagates and aborts the whole directory run. -/
def load_from_directory (ext : ExtParsers) (files : List SrcFile) :
    Option (List RawBook) :=
  foldOpt (fun acc f =>
    match load_any ext f with
    | none => none
    | some bs => some (mergeBooks acc bs)) [] files

/-! ## Concrete scenario data used by the theorems below -/

/-- The per-code-point effect of `normalize`: lower-case, NFD, drop `Mn`
marks, drop spaces.  `pyNormalize` is proved equal to its pointwise
iteration below. -/
def procCp (n : Nat) : List Nat :=
  ((nfdCp (lowerCp n)).filter (fun c => !isMnCp c)).filter (fun c => c != 32)

/-- A trivial instantiation of the external-library parsers, used in the
concrete directory scenarios (which only touch `.imp`/`.foo` files, so
these are never invoked). -/
def constExt : ExtParsers :=
  ⟨fun _ => some [], fun _ => some [], fun _ => some [], fun _ => some []⟩

/-- Directory-scenario file A: an imp file giving Juan chapter 1. -/
def fileA : SrcFile := ⟨".imp", "jhn 1:1 En el principio"⟩

/-- Directory-scenario file B: an imp file giving Juan chapter 1 with
different text, plus chapter 2. -/
def fileB : SrcFile := ⟨".imp", "jhn 1:1 OTRO TEXTO\njhn 2:1 Habia un hombre"⟩

/-- A file whose extension matches none of the six known formats. -/
def badFile : SrcFile := ⟨".foo", "x"⟩

/-- The `BOOK_MAP` value of id `1co`. -/
def names1co : BookNames := ⟨"1 Corintios", "1 Corintios", "1 Cori"⟩

/-- The `BOOK_MAP` value of id `1ch` (the first entry of the table). -/
def names1ch : BookNames := ⟨"1 Crónicas", "1 Crónicas", "1 Crón"⟩

/-- A heading item of kind `section2`, carrying only `"text"` (no
`"lines"` key), as the spec's data model describes `Heading` items. -/
def sec2Item : RawItem := ⟨some "section2", none, none, some "Título"⟩

/-- A well-formed verse item. -/
def verseItem : RawItem := ⟨some "verse", some 1, some ["En el", "principio"], none⟩

/-- A single-verse intermediate book whose name resolves to `jhn`. -/
def juanBook : RawBook := ⟨"Juan", [⟨1, [⟨some "verse", some 1, some ["a"], none⟩]⟩]⟩

/-- An intermediate book whose name exhausts all four resolver tiers. -/
def zzyxBook : RawBook := ⟨"Zzyx", []⟩

/-- A chapter holding a well-formed verse and a heading item. -/
def hbChapter : RawChapter := ⟨1, [verseItem, sec2Item]⟩

/-- A book that resolves (name `Juan`) but contains a heading item
without a `"lines"` key. -/
def headingBook : RawBook := ⟨"Juan", [hbChapter]⟩

/-! # Theorems

First the helper lemmas, then one theorem (plus counterexample/witness
where required) per claim. -/

/-! ## Normalizer lemmas -/

theorem pyNormalize_cons (a : Nat) (s : List Nat) :
    pyNormalize (a :: s) = procCp a ++ pyNormalize s := by
  simp [pyNormalize, procCp, List.filter_append]

theorem pyNormalize_eq_flat (s : List Nat) : pyNormalize s = s.flatMap procCp := by
  induction s with
  | nil => rfl
  | cons a t ih => rw [pyNormalize_cons, List.flatMap_cons, ih]

set_option maxRecDepth 10000 in
set_option maxHeartbeats 1000000 in
theorem procCp_flat (n : Nat) : (procCp n).flatMap procCp = procCp n := by
  by_cases h : n < 900
  · have hb : ∀ m, m < 900 → (procCp m).flatMap procCp = procCp m := by decide
    exact hb n h
  · have e1 : lowerCp n = n := by
      unfold lowerCp
      rw [if_neg (by omega : ¬(65 ≤ n ∧ n ≤ 90)), if_neg (by omega : ¬n = 193),
        if_neg (by omega : ¬n = 201), if_neg (by omega : ¬n = 205),
        if_neg (by omega : ¬n = 209), if_neg (by omega : ¬n = 211),
        if_neg (by omega : ¬n = 218), if_neg (by omega : ¬n = 220)]
    have e2 : nfdCp n = [n] := by
      unfold nfdCp
      rw [if_neg (by omega : ¬n = 193), if_neg (by omega : ¬n = 201),
        if_neg (by omega : ¬n = 205), if_neg (by omega : ¬n = 209),
        if_neg (by omega : ¬n = 211), if_neg (by omega : ¬n = 218),
        if_neg (by omega : ¬n = 220), if_neg (by omega : ¬n = 225),
        if_neg (by omega : ¬n = 233), if_neg (by omega : ¬n = 237),
        if_neg (by omega : ¬n = 241), if_neg (by omega : ¬n = 243),
        if_neg (by omega : ¬n = 250), if_neg (by omega : ¬n = 252)]
    have e3 : isMnCp n = false := by
      exact decide_eq_false (by omega)
    have e4 : (n != 32) = true := by
      exact bne_iff_ne.mpr (by omega)
    have hp : procCp n = [n] := by
      simp [procCp, e1, e2, List.filter, e3, e4]
    rw [hp]
    simp [hp]

/-- C6 (counterexample). The claim says the result of `normalize`
contains no whitespace character of any kind (spaces, tabs, newlines).
On the input `"a\tb"` the code returns `"a\tb"` unchanged: the tab
(code point 9) survives, because `replace(" ", "")` removes only the
space character U+0020. -/
theorem c6_counterexample :
    pyNormalize (codes "a\tb") = codes "a\tb"
    ∧ (9 : Nat) ∈ pyNormalize (codes "a\tb")
    ∧ (10 : Nat) ∈ pyNormalize (codes "a\nb") := by
  decide

/-- C6 (amended): `normalize` lower-cases, strips diacritic marks by
canonical decomposition, and removes all *space* characters (U+0020) —
so the result never contains a space — but no other whitespace: a tab
(9) or newline (10) passes through unchanged. -/
theorem c6_theorem :
    (∀ s : List Nat, 32 ∉ pyNormalize s)
    ∧ pyNormalize [9] = [9] ∧ pyNormalize [10] = [10] := by
  refine ⟨?_, by decide, by decide⟩
  intro s hs
  simp only [pyNormalize, List.mem_filter, bne_self_eq_false, Bool.false_eq_true,
    and_false] at hs

/-- C7: `normalize` is idempotent — normalizing an already-normalized
code-point sequence returns it unchanged, for every input string. -/
theorem c7_theorem (s : List Nat) : pyNormalize (pyNormalize s) = pyNormalize s := by
  rw [pyNormalize_eq_flat s, pyNormalize_eq_flat (s.flatMap procCp)]
  induction s with
  | nil => rfl
  | cons a t ih =>
    rw [List.flatMap_cons, List.flatMap_append, procCp_flat, ih]

/-- C5 (counterexample). The claim says `resolve("1corintios")` returns
`1co` via tier 3.  In fact tier 2 already matches — normalization
deletes the space of the long name `"1 Corintios"`, so the normalized
forms are exactly equal — and the tier-3 search itself has no match at
all for this input (each table id's normalized long name retains its
leading digit, so it never starts with the digit-free rest
`"corintios"`). -/
theorem c5_counterexample :
    findTier2 "1corintios" = some ("1co", names1co)
    ∧ findTier3 "1corintios" = none := by
  decide

/-- C5 (amended): `resolve("1 Corintios")` returns `1co` via tier 1
(exact long-name match), and `resolve("1corintios")` (no space) also
returns `1co`, but via tier 2 (normalized exact match) — tier 1 fails on
it and tier 3 would not match it. -/
theorem c5_theorem :
    findTier1 "1 Corintios" = some ("1co", names1co)
    ∧ find_book_id_from_name "1 Corintios" = some ("1co", names1co)
    ∧ findTier1 "1corintios" = none
    ∧ findTier2 "1corintios" = some ("1co", names1co)
    ∧ find_book_id_from_name "1corintios" = some ("1co", names1co) := by
  decide

/-- C9: resolving an empty or all-spaces book name does not raise.
Tiers 1-3 all fail, but the empty normalized name is a substring of
every normalized long name, so tier 4 returns the first table entry in
enumeration order: id `1ch`. -/
theorem c9_theorem :
    findTier1 "" = none ∧ findTier2 "" = none ∧ findTier3 "" = none
    ∧ findTier4 "" = some ("1ch", names1ch)
    ∧ find_book_id_from_name "" = some ("1ch", names1ch)
    ∧ find_book_id_from_name "   " = some ("1ch", names1ch) := by
  decide

/-- C2 (counterexample). The claim says every `Heading` item becomes a
structured content-node carrying its text and a normalized level, with
`section2` mapped to level 2.  The converter has no heading handling at
all: on a `section2` heading item carrying only `"text"`,
`convert_chapter_item` reads the absent `"lines"` key and raises
`KeyError` — no content-node (let alone one with `level == 2`) is
produced. -/
theorem c2_counterexample :
    sec2Item.type = some "section2"
    ∧ sec2Item.text = some "Título"
    ∧ convert_chapter_item sec2Item = none :=
  ⟨rfl, rfl, rfl⟩

/-- C2 (amended): the Content Converter converts every item carrying a
`"lines"` field into a one-element list holding the lines joined by
single spaces; it produces no heading node and no level — an item
without `"lines"` (as a `Heading` carrying only `"text"` is) raises
`KeyError` instead. -/
theorem c2_theorem (it : RawItem) (ls : List String) (h : it.lines = some ls) :
    convert_chapter_item it = some [String.intercalate " " ls] := by
  simp [convert_chapter_item, h]

/-- Witness for `c2_theorem` at a concrete verse item. -/
theorem c2_witness :
    verseItem.lines = some ["En el", "principio"]
    ∧ convert_chapter_item verseItem = some [String.intercalate " " ["En el", "principio"]] :=
  ⟨rfl, c2_theorem verseItem ["En el", "principio"] rfl⟩

/-! ## Lemmas on the conversion loop of `main` -/

theorem mapOption_eq_none (f : α → Option β) (l : List α) (x : α)
    (hx : x ∈ l) (hf : f x = none) : mapOption f l = none := by
  induction l with
  | nil => cases hx
  | cons a t ih =>
    rcases List.mem_cons.mp hx with h | h
    · subst h
      cases hr : mapOption f t <;> simp [mapOption, hf, hr]
    · cases hfa : f a <;> simp [mapOption, hfa, ih h]

theorem convert_book_none_of_unresolved (b : RawBook)
    (h : find_book_id_from_name b.name = none) : convert_book b = none := by
  simp [convert_book, h]

theorem convert_book_none_of_missing_lines (b : RawBook) (ch : RawChapter)
    (it : RawItem) (hch : ch ∈ b.chapters) (hit : it ∈ ch.items)
    (hl : it.lines = none) : convert_book b = none := by
  have hinner : mapOption convert_chapter_item ch.items = none :=
    mapOption_eq_none _ _ it hit (by simp [convert_chapter_item, hl])
  have houter :
      mapOption (fun c => mapOption convert_chapter_item c.items) b.chapters = none :=
    mapOption_eq_none _ _ ch hch hinner
  unfold convert_book
  cases hres : find_book_id_from_name b.name with
  | none => rfl
  | some p => cases p with
    | mk bid entry => rw [houter]

theorem processBooks_skip (b : RawBook) (hb : convert_book b = none)
    (pre post : List RawBook) :
    processBooks (pre ++ b :: post) = processBooks (pre ++ post) := by
  unfold processBooks
  rw [List.foldl_append, List.foldl_append, List.foldl_cons]
  have : mainStep (pre.foldl mainStep []) b = pre.foldl mainStep [] := by
    simp [mainStep, hb]
  rw [this]

theorem writtenBookFiles_skip (b : RawBook) (hb : convert_book b = none)
    (pre post : List RawBook) :
    writtenBookFiles (pre ++ b :: post) = writtenBookFiles (pre ++ post) := by
  unfold writtenBookFiles
  rw [List.foldl_append, List.foldl_append, List.foldl_cons, hb]

theorem dictInsert_mem {k : String} {v : RustBook} {acc : List (String × RustBook)}
    {p : String × RustBook} (h : p ∈ dictInsert k v acc) : p = (k, v) ∨ p ∈ acc := by
  unfold dictInsert at h
  split at h
  · rcases List.mem_map.mp h with ⟨q, hq, he⟩
    by_cases hk : (q.1 == k) = true
    · rw [if_pos hk] at he
      exact Or.inl he.symm
    · rw [if_neg hk] at he
      exact Or.inr (he ▸ hq)
  · rcases List.mem_append.mp h with h | h
    · exact Or.inr h
    · exact Or.inl (List.mem_singleton.mp h)

theorem convert_book_resolves {bk : RawBook} {bid : String} {rb : RustBook}
    (h : convert_book bk = some (bid, rb)) :
    ∃ e, find_book_id_from_name bk.name = some (bid, e) := by
  unfold convert_book at h
  cases hres : find_book_id_from_name bk.name with
  | none => rw [hres] at h; cases h
  | some p =>
    cases p with
    | mk b' e =>
      rw [hres] at h
      cases hmo : mapOption (fun c => mapOption convert_chapter_item c.items) bk.chapters with
      | none => rw [hmo] at h; cases h
      | some c =>
        rw [hmo] at h
        injection h with h'
        injection h' with h1 h2
        subst h1
        exact ⟨e, rfl⟩

theorem processBooks_mem_aux :
    ∀ (l : List RawBook) (acc : List (String × RustBook)) (p : String × RustBook),
      p ∈ l.foldl mainStep acc →
      p ∈ acc ∨ ∃ bk, bk ∈ l ∧ ∃ e, find_book_id_from_name bk.name = some (p.1, e) := by
  intro l
  induction l with
  | nil => intro acc p h; exact Or.inl h
  | cons x t ih =>
    intro acc p h
    rw [List.foldl_cons] at h
    rcases ih (mainStep acc x) p h with hacc | ⟨bk, hbk, e, he⟩
    · unfold mainStep at hacc
      cases hcb : convert_book x with
      | none => rw [hcb] at hacc; exact Or.inl hacc
      | some q =>
        rw [hcb] at hacc
        cases q with
        | mk bid rb =>
          rcases dictInsert_mem hacc with he | hin
          · subst he
            obtain ⟨e, hres⟩ := convert_book_resolves hcb
            exact Or.inr ⟨x, List.mem_cons_self x t, e, hres⟩
          · exact Or.inl hin
    · exact Or.inr ⟨bk, List.mem_cons_of_mem x hbk, e, he⟩

/-- C4: when the resolver fails on a book's name, that book is skipped
and the remaining books are still converted (the run's `converted` dict,
the `books/` files and the manifest are exactly those of the run without
the failed book); `book_names` lists exactly the successfully converted
books, and every key in it comes from a successful resolution of one of
the other books — never a placeholder for the failed one. -/
theorem c4_theorem (pre post : List RawBook) (b : RawBook)
    (h : find_book_id_from_name b.name = none) :
    processBooks (pre ++ b :: post) = processBooks (pre ++ post)
    ∧ writtenBookFiles (pre ++ b :: post) = writtenBookFiles (pre ++ post)
    ∧ (build_manifest (processBooks (pre ++ b :: post))).book_names
        = (processBooks (pre ++ post)).map (fun p => (p.1, p.2.name))
    ∧ ∀ bid rb, (bid, rb) ∈ processBooks (pre ++ b :: post) →
        ∃ bk, bk ∈ pre ++ post ∧ ∃ e, find_book_id_from_name bk.name = some (bid, e) := by
  have hb : convert_book b = none := convert_book_none_of_unresolved b h
  have hskip := processBooks_skip b hb pre post
  refine ⟨hskip, writtenBookFiles_skip b hb pre post, by rw [hskip]; rfl, ?_⟩
  intro bid rb hmem
  rcases processBooks_mem_aux (pre ++ b :: post) [] (bid, rb) hmem with hc | ⟨bk, hbk, e, he⟩
  · cases hc
  · refine ⟨bk, ?_, e, he⟩
    rcases List.mem_append.mp hbk with hl | hr
    · exact List.mem_append.mpr (Or.inl hl)
    · rcases List.mem_cons.mp hr with hbb | hr
      · subst hbb
        rw [h] at he
        cases he
      · exact List.mem_append.mpr (Or.inr hr)

/-- Witness for `c4_theorem`: the unresolvable book `Zzyx` next to a
well-formed `Juan` book. -/
theorem c4_witness :
    find_book_id_from_name "Zzyx" = none
    ∧ (processBooks ([] ++ zzyxBook :: [juanBook]) = processBooks ([] ++ [juanBook])
       ∧ writtenBookFiles ([] ++ zzyxBook :: [juanBook]) = writtenBookFiles ([] ++ [juanBook])
       ∧ (build_manifest (processBooks ([] ++ zzyxBook :: [juanBook]))).book_names
           = (processBooks ([] ++ [juanBook])).map (fun p => (p.1, p.2.name))
       ∧ ∀ bid rb, (bid, rb) ∈ processBooks ([] ++ zzyxBook :: [juanBook]) →
           ∃ bk, bk ∈ [] ++ [juanBook]
             ∧ ∃ e, find_book_id_from_name bk.name = some (bid, e)) :=
  ⟨by decide, c4_theorem [] [juanBook] zzyxBook (by decide)⟩

/-- C8: a book containing an item without a `"lines"` field (as a
`Heading` item carrying only `"text"` is) fails conversion with an
exception caught per-book in `main`, so the entire book — its
well-formed verse items included — contributes nothing: the `converted`
dict, the written `books/` files and the manifest are exactly those of
the run without that book. -/
theorem c8_theorem (b : RawBook) (ch : RawChapter) (it : RawItem)
    (pre post : List RawBook) (hch : ch ∈ b.chapters) (hit : it ∈ ch.items)
    (hl : it.lines = none) :
    convert_book b = none
    ∧ processBooks (pre ++ b :: post) = processBooks (pre ++ post)
    ∧ writtenBookFiles (pre ++ b :: post) = writtenBookFiles (pre ++ post)
    ∧ (build_manifest (processBooks (pre ++ b :: post))).book_names
        = (processBooks (pre ++ post)).map (fun p => (p.1, p.2.name)) := by
  have hb : convert_book b = none := convert_book_none_of_missing_lines b ch it hch hit hl
  have hskip := processBooks_skip b hb pre post
  exact ⟨hb, hskip, writtenBookFiles_skip b hb pre post, by rw [hskip]; rfl⟩

/-- Witness for `c8_theorem`: a `Juan` book holding one well-formed
verse and one heading item, next to another well-formed book. -/
theorem c8_witness :
    convert_book headingBook = none
    ∧ processBooks ([] ++ headingBook :: [juanBook]) = processBooks ([] ++ [juanBook])
    ∧ writtenBookFiles ([] ++ headingBook :: [juanBook]) = writtenBookFiles ([] ++ [juanBook])
    ∧ (build_manifest (processBooks ([] ++ headingBook :: [juanBook]))).book_names
        = (processBooks ([] ++ [juanBook])).map (fun p => (p.1, p.2.name)) :=
  c8_theorem headingBook hbChapter sec2Item [] [juanBook] (by decide) (by decide) rfl

/-! ## Lemmas on the directory merger -/

theorem mergeFold (nums : List Nat) (l : List RawChapter) :
    ∀ acc : List RawChapter,
      l.foldl (fun chs ch => if nums.contains ch.number then chs else chs ++ [ch]) acc
        = acc ++ l.filter (fun ch => !nums.contains ch.number) := by
  induction l with
  | nil => intro acc; simp
  | cons a t ih =>
    intro acc
    rw [List.foldl_cons, List.filter_cons]
    cases nums.contains a.number
    · rw [if_neg Bool.false_ne_true, ih (acc ++ [a]),
        if_pos (show (!false) = true from rfl), List.append_assoc]
      rfl
    · rw [if_pos rfl, ih acc,
        if_neg (show ¬(!true) = true from Bool.false_ne_true)]

theorem mergeBook_chapters (e i : RawBook) :
    (mergeBook e i).chapters
      = e.chapters
        ++ i.chapters.filter
             (fun c => !(e.chapters.map (fun c => c.number)).contains c.number) := by
  unfold mergeBook
  exact mergeFold _ i.chapters e.chapters

/-- C3: merging never overwrites an existing chapter.  In general, the
merged book is the existing book's chapters unchanged, followed by
exactly those incoming chapters whose number was not already present
(first-seen wins).  Concretely, for two imp files naming the same book
`Juan`, where file A supplies chapter 1 and file B supplies chapter 1
with different text plus chapter 2, the merged directory result keeps
file A's chapter-1 text and appends file B's chapter 2. -/
theorem c3_theorem :
    (∀ e i : RawBook,
      (mergeBook e i).chapters
        = e.chapters
          ++ i.chapters.filter
               (fun c => !(e.chapters.map (fun c => c.number)).contains c.number))
    ∧ load_from_directory constExt [fileA, fileB]
        = some [⟨"Juan",
            [⟨1, [⟨some "verse", some 1, some ["En el principio"], none⟩]⟩,
             ⟨2, [⟨some "verse", some 1, some ["Habia un hombre"], none⟩]⟩]⟩] :=
  ⟨mergeBook_chapters, by decide⟩

/-- C1 (counterexample). The claim says a file of unknown format in a
directory is skipped and the remaining files are still processed.  In
fact there is no exception handling in `load_from_directory`: with a
`.foo` file listed before a perfectly loadable `.imp` file — which on
its own yields the book `Juan` — the whole directory load raises
(`none`), and the `.imp` file's book is never produced. -/
theorem c1_counterexample :
    detect_format badFile = none
    ∧ load_any constExt fileA
        = some [⟨"Juan", [⟨1, [⟨some "verse", some 1, some ["En el principio"], none⟩]⟩]⟩]
    ∧ load_from_directory constExt [badFile, fileA] = none := by
  decide

/-- C1 (amended): in directory mode, a file whose extension matches none
of the known formats makes `detect_format` raise `ValueError`; the error
propagates uncaught through `load_any` and `load_from_directory`, so the
whole batch aborts — whatever files precede or follow it, the directory
load returns no book list at all. -/
theorem loadDir_aux (ext : ExtParsers) (f : SrcFile) (h : detect_format f = none)
    (post : List SrcFile) :
    ∀ (pre : List SrcFile) (acc : List RawBook),
      foldOpt (fun acc f =>
        match load_any ext f with
        | none => none
        | some bs => some (mergeBooks acc bs)) acc (pre ++ f :: post) = none := by
  intro pre
  induction pre with
  | nil =>
    intro acc
    rw [List.nil_append]
    simp [foldOpt, load_any, h]
  | cons g t ih =>
    intro acc
    rw [List.cons_append]
    simp only [foldOpt]
    cases hg : load_any ext g with
    | none => rfl
    | some bs => exact ih (mergeBooks acc bs)

/-- C1 (amended): in directory mode, a file whose extension matches none
of the known formats makes `detect_format` raise `ValueError`; the error
propagates uncaught through `load_any` and `load_from_directory`, so the
whole batch aborts — whatever files precede or follow it, the directory
load returns no book list at all. -/
theorem c1_theorem (ext : ExtParsers) (pre post : List SrcFile) (f : SrcFile)
    (h : detect_format f = none) :
    load_from_directory ext (pre ++ f :: post) = none := by
  unfold load_from_directory
  exact loadDir_aux ext f h post pre []

/-- Witness for `c1_theorem` at the concrete `.foo` file. -/
theorem c1_witness :
    detect_format badFile = none
    ∧ load_from_directory constExt ([] ++ badFile :: [fileA]) = none :=
  ⟨by decide, c1_theorem constExt [] [fileA] badFile (by decide)⟩

/-! ## Lemmas on the USFM parser -/

theorem usfmStep_inert (l : List Char) (h1 : matchUsfmId (pyStrip l) = none)
    (h2 : matchUsfmCh (pyStrip l) = none) :
    usfmStep ([], none) l = some ([], none) := by
  simp only [usfmStep, h1, h2]
  cases matchUsfmVs (pyStrip l) with
  | none => rfl
  | some p => cases p with | mk vn text => rfl

theorem c10_aux (post : List (List Char)) (cl : List Char) (n : Nat)
    (hid : matchUsfmId (pyStrip cl) = none)
    (hch : matchUsfmCh (pyStrip cl) = some n) :
    ∀ pre : List (List Char),
      (∀ l ∈ pre, matchUsfmId (pyStrip l) = none ∧ matchUsfmCh (pyStrip l) = none) →
      foldOpt usfmStep ([], none) (pre ++ cl :: post) = none := by
  intro pre
  induction pre with
  | nil =>
    intro _
    rw [List.nil_append]
    simp only [foldOpt]
    have hstep : usfmStep ([], none) cl = none := by
      simp only [usfmStep, hid, hch]
    rw [hstep]
  | cons g t ih =>
    intro hp
    rw [List.cons_append]
    simp only [foldOpt]
    rw [usfmStep_inert g (hp g (List.mem_cons_self g t)).1 (hp g (List.mem_cons_self g t)).2]
    exact ih (fun l hl => hp l (List.mem_cons_of_mem g hl))

/-- C10: the USFM parser is not total — if a line matching the chapter
marker `\c N` occurs before any line matching the book identification
marker `\id`, `load_usfm` appends the chapter to the absent (`None`)
current book and raises (`none`), instead of ignoring the line or
returning a book list.  The preceding lines may be anything that matches
neither marker (verse lines included, since a verse with no current
chapter is skipped). -/
theorem c10_theorem (pre post : List (List Char)) (cl : List Char) (n : Nat)
    (hpre : ∀ l ∈ pre, matchUsfmId (pyStrip l) = none ∧ matchUsfmCh (pyStrip l) = none)
    (hid : matchUsfmId (pyStrip cl) = none)
    (hch : matchUsfmCh (pyStrip cl) = some n) :
    loadUsfmLines (pre ++ cl :: post) = none := by
  unfold loadUsfmLines
  rw [c10_aux post cl n hid hch pre hpre]

/-- Witness for `c10_theorem`: the single-line input `"\c 1"`. -/
theorem c10_witness :
    matchUsfmCh (pyStrip ("\\c 1".data)) = some 1
    ∧ loadUsfmLines ([] ++ "\\c 1".data :: []) = none
    ∧ load_usfm "\\c 1" = none :=
  ⟨by decide,
   c10_theorem [] [] ("\\c 1".data) 1
     (by intro l hl; exact absurd hl (List.not_mem_nil l)) (by decide) (by decide),
   by decide⟩

end Convert
